import Mathlib

/-!
Verification of the CARLA simulation scripts (record_images.py,
src/playback/replay_with_sensors.py, src/recording/record_replay_logs.py,
src/utils/ffmpeg_video.py) via a shallow embedding.

External effects (filesystem, simulator server, subprocess) are modelled by
oracles passed as parameters and by explicit event traces, so every
definition is executable.
-/

/-! ## Video assembler: src/utils/ffmpeg_video.py -/

/-- The module-level configuration of ffmpeg_video.py
(SAVE_DIR, VIDEO_FILE, FPS, BITRATE). -/
structure VConfig where
  SAVE_DIR : String
  VIDEO_FILE : String
  FPS : Nat
  BITRATE : String
deriving DecidableEq, Repr

/-- The default values assigned at module scope. -/
def defaultVConfig : VConfig :=
  { SAVE_DIR := "output_images", VIDEO_FILE := "carla_output.mp4", FPS := 20, BITRATE := "5M" }

/-- Outcome of the subprocess.run call on the ffmpeg command:
success, CalledProcessError (non-zero exit, with returncode and stderr),
or FileNotFoundError (ffmpeg binary not installed). -/
inductive EncBehavior where
  | succeeds
  | calledProcessError (returncode : Int) (stderr : String)
  | fileNotFoundError
deriving DecidableEq, Repr

/-- Observable events of create_video: console output, the subprocess.run
launch of the encoder with its argument list, and creation of the output
file (performed by a successful encoder run). -/
inductive VEv where
  | print (s : String)
  | runEncoder (cmd : List String)
  | outputCreated (name : String)
deriving DecidableEq, Repr

/-- The diagnostic printed when glob finds no frame files. -/
def msgNoImages (cfg : VConfig) : String :=
  "No image files found in " ++ cfg.SAVE_DIR

/-- The diagnostic printed when subprocess.run raises FileNotFoundError. -/
def msgEncMissing : String :=
  "❌ ffmpeg not found. Please install ffmpeg."

/-- The first diagnostic printed when ffmpeg exits non-zero. -/
def msgEncFailed (rc : Int) : String :=
  "❌ ffmpeg failed with error code " ++ toString rc

/-- The argument list built for subprocess.run in create_video
(lines 27-34 of ffmpeg_video.py); os.path.join is "/"-concatenation. -/
def buildCmd (cfg : VConfig) : List String :=
  ["ffmpeg", "-y",
   "-framerate", toString cfg.FPS,
   "-i", cfg.SAVE_DIR ++ "/" ++ "frame_%06d.jpg",
   "-b:v", cfg.BITRATE,
   "-r", toString cfg.FPS,
   cfg.VIDEO_FILE]

/-- create_video, over a filesystem oracle (does SAVE_DIR exist, which
files match frame_*.jpg) and an encoder-behavior oracle.  Returns the
boolean result and the event trace. -/
def create_video (cfg : VConfig) (dirExists : Bool) (imageFiles : List String)
    (enc : EncBehavior) : Bool × List VEv :=
  if ¬ dirExists then
    (false, [VEv.print ("Directory " ++ cfg.SAVE_DIR ++ " does not exist.")])
  else if imageFiles.isEmpty then
    (false, [VEv.print (msgNoImages cfg)])
  else
    let found := VEv.print ("Found " ++ toString imageFiles.length ++ " images. Creating video...")
    let cmd := buildCmd cfg
    match enc with
    | .succeeds =>
        (true, [found, VEv.runEncoder cmd,
                VEv.print ("✅ Video created: " ++ cfg.VIDEO_FILE),
                VEv.outputCreated cfg.VIDEO_FILE])
    | .calledProcessError rc stderr =>
        (false, [found, VEv.runEncoder cmd,
                 VEv.print (msgEncFailed rc),
                 VEv.print ("Error output: " ++ stderr)])
    | .fileNotFoundError =>
        (false, [found, VEv.runEncoder cmd,
                 VEv.print msgEncMissing])

/-- create_video_with_bitrate: saves the module globals BITRATE and
VIDEO_FILE, overrides them (the output name only when the argument is
truthy, i.e. neither None nor the empty string), calls create_video,
restores the globals, and returns create_video's result.  The returned
pair of strings is the final (BITRATE, VIDEO_FILE) global state. -/
def create_video_with_bitrate (cfg : VConfig) (bitrate : String)
    (output_name : Option String) (dirExists : Bool) (imageFiles : List String)
    (enc : EncBehavior) : Bool × String × String :=
  let original_bitrate := cfg.BITRATE
  let original_video := cfg.VIDEO_FILE
  let cfg1 := { cfg with BITRATE := bitrate }
  let cfg2 :=
    match output_name with
    | some s => if s = "" then cfg1 else { cfg1 with VIDEO_FILE := s }
    | none => cfg1
  let success := (create_video cfg2 dirExists imageFiles enc).1
  (success, original_bitrate, original_video)

/-- The VIDEO_FILE value in force during the wrapped create_video call:
overridden only by a truthy output_name. -/
def effectiveVideoFile (cfg : VConfig) (output_name : Option String) : String :=
  match output_name with
  | some s => if s = "" then cfg.VIDEO_FILE else s
  | none => cfg.VIDEO_FILE

/-- Two strings that differ at a character position inside their
respective prefixes are distinct however they are extended. -/
theorem string_append_ne (p q s t : String) (i : Nat)
    (hp : i < p.data.length) (hq : i < q.data.length)
    (hne : p.data[i]? ≠ q.data[i]?) :
    p ++ s ≠ q ++ t := by
  intro h
  apply hne
  have hd : (p ++ s).data = (q ++ t).data := by rw [h]
  rw [String.data_append, String.data_append] at hd
  calc p.data[i]? = (p.data ++ s.data)[i]? := (List.getElem?_append_left hp).symm
    _ = (q.data ++ t.data)[i]? := by rw [hd]
    _ = q.data[i]? := List.getElem?_append_left hq

/-- A string with an explicit nonempty spelling equals itself appended
with the empty string, letting string_append_ne compare it with an
appended string. -/
theorem string_eq_append_empty (s : String) : s = s ++ "" := by
  apply String.ext
  rw [String.data_append]
  simp

/-- C6: when the source directory is missing or contains zero frame files,
create_video returns False, prints a diagnostic, never launches the
encoder, and no output file is created. -/
theorem create_video_no_frames_fails (cfg : VConfig) (dirExists : Bool)
    (imageFiles : List String) (enc : EncBehavior)
    (h : dirExists = false ∨ imageFiles = []) :
    (create_video cfg dirExists imageFiles enc).1 = false ∧
    (∃ s, VEv.print s ∈ (create_video cfg dirExists imageFiles enc).2) ∧
    (∀ cmd, VEv.runEncoder cmd ∉ (create_video cfg dirExists imageFiles enc).2) ∧
    (∀ name, VEv.outputCreated name ∉ (create_video cfg dirExists imageFiles enc).2) := by
  rcases h with h | h
  · subst h
    simp [create_video]
  · subst h
    cases dirExists <;> simp [create_video]

theorem create_video_no_frames_fails_witness :
    ((true : Bool) = false ∨ ([] : List String) = []) ∧
    ((create_video defaultVConfig true [] EncBehavior.succeeds).1 = false ∧
     (∃ s, VEv.print s ∈ (create_video defaultVConfig true [] EncBehavior.succeeds).2) ∧
     (∀ cmd, VEv.runEncoder cmd ∉ (create_video defaultVConfig true [] EncBehavior.succeeds).2) ∧
     (∀ name, VEv.outputCreated name ∉ (create_video defaultVConfig true [] EncBehavior.succeeds).2)) :=
  ⟨Or.inr rfl,
   create_video_no_frames_fails defaultVConfig true [] EncBehavior.succeeds (Or.inr rfl)⟩

/-- C7: create_video reports the three failure kinds distinctly and returns
False for each: no input frames (own message, encoder never launched),
encoder not installed (FileNotFoundError), and encoder exited non-zero
(where the encoder stderr text is surfaced); the three diagnostics are
pairwise distinct strings. -/
theorem create_video_failure_kinds (cfg : VConfig) (imageFiles : List String)
    (rc : Int) (stderr : String) :
    (∀ enc, (create_video cfg true [] enc).1 = false ∧
       VEv.print (msgNoImages cfg) ∈ (create_video cfg true [] enc).2 ∧
       ∀ cmd, VEv.runEncoder cmd ∉ (create_video cfg true [] enc).2) ∧
    (imageFiles ≠ [] →
       (create_video cfg true imageFiles EncBehavior.fileNotFoundError).1 = false ∧
       VEv.print msgEncMissing ∈
         (create_video cfg true imageFiles EncBehavior.fileNotFoundError).2) ∧
    (imageFiles ≠ [] →
       (create_video cfg true imageFiles (EncBehavior.calledProcessError rc stderr)).1 = false ∧
       VEv.print (msgEncFailed rc) ∈
         (create_video cfg true imageFiles (EncBehavior.calledProcessError rc stderr)).2 ∧
       VEv.print ("Error output: " ++ stderr) ∈
         (create_video cfg true imageFiles (EncBehavior.calledProcessError rc stderr)).2) ∧
    msgNoImages cfg ≠ msgEncMissing ∧
    msgNoImages cfg ≠ msgEncFailed rc ∧
    msgEncMissing ≠ msgEncFailed rc := by
  refine ⟨?_, ?_, ?_, ?_, ?_, ?_⟩
  · intro enc
    simp [create_video]
  · intro h
    cases imageFiles with
    | nil => exact absurd rfl h
    | cons a l => simp [create_video]
  · intro h
    cases imageFiles with
    | nil => exact absurd rfl h
    | cons a l => simp [create_video]
  · unfold msgNoImages
    rw [string_eq_append_empty msgEncMissing]
    exact string_append_ne _ _ _ _ 0 (by decide) (by decide) (by decide)
  · unfold msgNoImages msgEncFailed
    exact string_append_ne _ _ _ _ 0 (by decide) (by decide) (by decide)
  · unfold msgEncFailed
    rw [string_eq_append_empty msgEncMissing]
    exact string_append_ne _ _ _ _ 9 (by decide) (by decide) (by decide)

theorem create_video_failure_kinds_witness :
    (["frame_000000.jpg"] ≠ ([] : List String)) ∧
    ((create_video defaultVConfig true ["frame_000000.jpg"] EncBehavior.fileNotFoundError).1 = false ∧
     VEv.print msgEncMissing ∈
       (create_video defaultVConfig true ["frame_000000.jpg"] EncBehavior.fileNotFoundError).2) ∧
    msgNoImages defaultVConfig ≠ msgEncFailed 1 :=
  ⟨by simp,
   (create_video_failure_kinds defaultVConfig ["frame_000000.jpg"] 1 "bad input").2.1 (by simp),
   (create_video_failure_kinds defaultVConfig ["frame_000000.jpg"] 1 "bad input").2.2.2.2.1⟩

/-- C8: the encoder argument list is a deterministic function of the
configuration (same SAVE_DIR, FPS, BITRATE, VIDEO_FILE give the identical
command line), always contains the overwrite flag -y, the fixed
zero-padded input pattern, and the configured framerate and bitrate; and
every encoder launch performed by create_video uses exactly this list. -/
theorem buildCmd_deterministic (c₁ c₂ : VConfig)
    (h1 : c₁.SAVE_DIR = c₂.SAVE_DIR) (h2 : c₁.FPS = c₂.FPS)
    (h3 : c₁.BITRATE = c₂.BITRATE) (h4 : c₁.VIDEO_FILE = c₂.VIDEO_FILE) :
    buildCmd c₁ = buildCmd c₂ ∧
    "-y" ∈ buildCmd c₁ ∧
    (c₁.SAVE_DIR ++ "/" ++ "frame_%06d.jpg") ∈ buildCmd c₁ ∧
    "-framerate" ∈ buildCmd c₁ ∧ toString c₁.FPS ∈ buildCmd c₁ ∧
    "-b:v" ∈ buildCmd c₁ ∧ c₁.BITRATE ∈ buildCmd c₁ ∧
    (∀ dirExists imageFiles enc cmd,
       VEv.runEncoder cmd ∈ (create_video c₁ dirExists imageFiles enc).2 →
       cmd = buildCmd c₁) := by
  refine ⟨by simp [buildCmd, h1, h2, h3, h4], by simp [buildCmd], by simp [buildCmd],
    by simp [buildCmd], by simp [buildCmd], by simp [buildCmd], by simp [buildCmd], ?_⟩
  intro dirExists imageFiles enc cmd hmem
  cases dirExists <;> cases imageFiles <;> cases enc <;> simp [create_video] at hmem <;>
    exact hmem

theorem buildCmd_deterministic_witness :
    buildCmd defaultVConfig = buildCmd defaultVConfig ∧
    "-y" ∈ buildCmd defaultVConfig ∧
    (defaultVConfig.SAVE_DIR ++ "/" ++ "frame_%06d.jpg") ∈ buildCmd defaultVConfig ∧
    "-framerate" ∈ buildCmd defaultVConfig ∧ toString defaultVConfig.FPS ∈ buildCmd defaultVConfig ∧
    "-b:v" ∈ buildCmd defaultVConfig ∧ defaultVConfig.BITRATE ∈ buildCmd defaultVConfig ∧
    (∀ dirExists imageFiles enc cmd,
       VEv.runEncoder cmd ∈ (create_video defaultVConfig dirExists imageFiles enc).2 →
       cmd = buildCmd defaultVConfig) :=
  buildCmd_deterministic defaultVConfig defaultVConfig rfl rfl rfl rfl

/-- C10: create_video_with_bitrate leaves the module configuration
(BITRATE, VIDEO_FILE) equal to its pre-call values after returning, and
returns exactly the result of the wrapped create_video run with the
overridden configuration. -/
theorem create_video_with_bitrate_restores (cfg : VConfig) (bitrate : String)
    (output_name : Option String) (dirExists : Bool) (imageFiles : List String)
    (enc : EncBehavior) :
    (create_video_with_bitrate cfg bitrate output_name dirExists imageFiles enc).2 =
      (cfg.BITRATE, cfg.VIDEO_FILE) ∧
    (create_video_with_bitrate cfg bitrate output_name dirExists imageFiles enc).1 =
      (create_video
        { cfg with BITRATE := bitrate, VIDEO_FILE := effectiveVideoFile cfg output_name }
        dirExists imageFiles enc).1 := by
  constructor
  · rfl
  · cases output_name with
    | none => rfl
    | some s =>
        by_cases h : s = "" <;>
          simp [create_video_with_bitrate, effectiveVideoFile, h]

/-! ## Lock-step capture loop: record_images.py lines 76-89, and the
identical loops in camera_mode.capture_frames and follow_mode.follow_vehicle
(replay_with_sensors.py). -/

/-- Observable events of the synchronous capture loop: a world.tick()
request, or the save_to_disk write of the frame file with the given
sequence number. -/
inductive CEv where
  | tick
  | write (idx : Nat)
deriving DecidableEq, Repr

/-- The sequence numbers written, in trace order. -/
def writesOf (evs : List CEv) : List Nat :=
  evs.filterMap fun e =>
    match e with
    | .write i => some i
    | .tick => none

/-- Number of ticks that deliver a buffer in a delivery stream. -/
def countSome (ds : List (Option Nat)) : Nat :=
  (ds.filterMap id).length

/-- Zero-pad a decimal numeral to six digits, as Python's {n:06d}. -/
def pad6 (n : Nat) : String :=
  let s := toString n
  String.mk (List.replicate (6 - s.length) '0') ++ s

/-- The frame file name used by every capture loop in the repository. -/
def frameFileName (n : Nat) : String :=
  "frame_" ++ pad6 n ++ ".jpg"

/-- The synchronous capture loop (while frame_count < target: tick; if the
single-slot holder is non-empty, save it under the current counter,
advance the counter, clear the holder).  The callback stores at most one
buffer per tick into the holder, which the loop drains before the next
tick, so the holder is empty at each tick; the delivery stream ds gives,
per tick, the buffer (if any) the callback stored during that tick.  The
run stops when the counter reaches the target or the modelled stream is
exhausted (the real loop would keep ticking). -/
def syncCapture (target : Nat) (fc : Nat) (ds : List (Option Nat)) : List CEv × Nat :=
  if fc < target then
    match ds with
    | [] => ([], fc)
    | none :: rest =>
        let r := syncCapture target fc rest
        (CEv.tick :: r.1, r.2)
    | some _ :: rest =>
        let r := syncCapture target (fc + 1) rest
        (CEv.tick :: CEv.write fc :: r.1, r.2)
  else ([], fc)

/-- If the stream delivers at least the missing number of buffers, the loop
reaches the target and writes exactly the sequence numbers fc, fc+1, …,
target-1 in order. -/
theorem syncCapture_complete (target : Nat) (ds : List (Option Nat)) :
    ∀ fc, fc ≤ target → target - fc ≤ countSome ds →
    (syncCapture target fc ds).2 = target ∧
    writesOf (syncCapture target fc ds).1 = List.range' fc (target - fc) := by
  induction ds with
  | nil =>
      intro fc hle hcount
      have hfc : fc = target := by
        simp [countSome] at hcount
        omega
      subst hfc
      simp [syncCapture, writesOf]
  | cons d rest ih =>
      intro fc hle hcount
      by_cases hlt : fc < target
      · cases d with
        | none =>
            have hc : target - fc ≤ countSome rest := by
              simpa [countSome] using hcount
            have h := ih fc hle hc
            simp only [syncCapture, if_pos hlt]
            refine ⟨h.1, ?_⟩
            simpa [writesOf] using h.2
        | some img =>
            have hc : target - (fc + 1) ≤ countSome rest := by
              simp [countSome] at hcount ⊢
              omega
            have h := ih (fc + 1) (by omega) hc
            simp only [syncCapture, if_pos hlt]
            refine ⟨h.1, ?_⟩
            have hrange : List.range' fc (target - fc) =
                fc :: List.range' (fc + 1) (target - (fc + 1)) := by
              have : target - fc = (target - (fc + 1)) + 1 := by omega
              rw [this, List.range'_succ]
            simp [writesOf] at h ⊢
            rw [h.2, hrange]
      · have hfc : fc = target := by omega
        subst hfc
        cases d <;> simp [syncCapture, writesOf, hlt]

/-- One unfolding of the loop on a tick that delivers no buffer. -/
theorem syncCapture_none (target fc : Nat) (rest : List (Option Nat))
    (hlt : fc < target) :
    syncCapture target fc (none :: rest) =
      (CEv.tick :: (syncCapture target fc rest).1, (syncCapture target fc rest).2) := by
  simp [syncCapture, hlt]

/-- One unfolding of the loop on a tick that delivers a buffer. -/
theorem syncCapture_some (target fc : Nat) (img : Nat) (rest : List (Option Nat))
    (hlt : fc < target) :
    syncCapture target fc (some img :: rest) =
      (CEv.tick :: CEv.write fc :: (syncCapture target (fc + 1) rest).1,
       (syncCapture target (fc + 1) rest).2) := by
  simp [syncCapture, hlt]

/-- Every nonempty trace of the loop starts with a tick. -/
theorem syncCapture_head (target fc : Nat) (ds : List (Option Nat)) :
    (syncCapture target fc ds).1 = [] ∨
    ∃ l, (syncCapture target fc ds).1 = CEv.tick :: l := by
  by_cases hlt : fc < target
  · cases ds with
    | nil => left; simp [syncCapture, hlt]
    | cons d rest =>
        cases d with
        | none =>
            right
            exact ⟨(syncCapture target fc rest).1,
              by rw [syncCapture_none target fc rest hlt]⟩
        | some img =>
            right
            exact ⟨CEv.write fc :: (syncCapture target (fc + 1) rest).1,
              by rw [syncCapture_some target fc img rest hlt]⟩
  · left
    cases ds with
    | nil => simp [syncCapture, hlt]
    | cons d rest => cases d <;> simp [syncCapture, hlt]

/-- Two write events are never adjacent in a capture trace: after a frame
is persisted, the next event (if any) is the next tick request. -/
theorem syncCapture_write_then_tick (target : Nat) (ds : List (Option Nat)) :
    ∀ fc, List.Chain' (fun a b => a = CEv.tick ∨ b = CEv.tick)
      (syncCapture target fc ds).1 := by
  induction ds with
  | nil =>
      intro fc
      by_cases hlt : fc < target <;> simp [syncCapture, hlt]
  | cons d rest ih =>
      intro fc
      by_cases hlt : fc < target
      · cases d with
        | none =>
            rw [syncCapture_none target fc rest hlt]
            rw [List.chain'_cons']
            exact ⟨fun b _ => Or.inl rfl, ih fc⟩
        | some img =>
            rw [syncCapture_some target fc img rest hlt]
            rw [List.chain'_cons]
            refine ⟨Or.inl rfl, ?_⟩
            rw [List.chain'_cons']
            refine ⟨fun b hb => ?_, ih (fc + 1)⟩
            rcases syncCapture_head target (fc + 1) rest with h | ⟨l, h⟩
            · rw [h] at hb
              simp at hb
            · rw [h] at hb
              simp at hb
              subst hb
              exact Or.inr rfl
      · cases d <;> simp [syncCapture, hlt]

/-- On a stream of ticks that never deliver a buffer, the loop keeps
ticking (one tick per stream element, no deadlock) but writes nothing and
never advances the counter. -/
theorem syncCapture_all_none (target fc : Nat) (hlt : fc < target) :
    ∀ k, syncCapture target fc (List.replicate k none) =
      (List.replicate k CEv.tick, fc) := by
  intro k
  induction k with
  | zero => simp [syncCapture, hlt]
  | succ k ihk =>
      rw [List.replicate_succ, syncCapture_none target fc _ hlt, ihk,
        List.replicate_succ]

/-- C2: for every target N ≥ 1, whenever the delivery stream supplies at
least N buffers, the lock-step capture loop terminates with counter N
having written exactly the frame files frame_000000.jpg …
frame_{N-1:06d}.jpg: the written sequence numbers are 0, …, N-1 in order,
without gaps or duplicates, and a write is never immediately followed by
another write — the next tick is requested first. -/
theorem sync_capture_exact (target : Nat) (ds : List (Option Nat))
    (h1 : 1 ≤ target) (h2 : target ≤ countSome ds) :
    (syncCapture target 0 ds).2 = target ∧
    writesOf (syncCapture target 0 ds).1 = List.range target ∧
    (writesOf (syncCapture target 0 ds).1).Nodup ∧
    (writesOf (syncCapture target 0 ds).1).map frameFileName =
      (List.range target).map frameFileName ∧
    List.Chain' (fun a b => a = CEv.tick ∨ b = CEv.tick)
      (syncCapture target 0 ds).1 := by
  have h := syncCapture_complete target ds 0 (Nat.zero_le _) (by simpa using h2)
  have hr : writesOf (syncCapture target 0 ds).1 = List.range target := by
    rw [h.2, List.range_eq_range', Nat.sub_zero]
  exact ⟨h.1, hr, by rw [hr]; exact List.nodup_range target, by rw [hr],
    syncCapture_write_then_tick target ds 0⟩

theorem sync_capture_exact_witness :
    (1 ≤ 3 ∧ 3 ≤ countSome [some 11, none, some 12, some 13]) ∧
    ((syncCapture 3 0 [some 11, none, some 12, some 13]).2 = 3 ∧
     writesOf (syncCapture 3 0 [some 11, none, some 12, some 13]).1 = List.range 3 ∧
     (writesOf (syncCapture 3 0 [some 11, none, some 12, some 13]).1).Nodup ∧
     (writesOf (syncCapture 3 0 [some 11, none, some 12, some 13]).1).map frameFileName =
       (List.range 3).map frameFileName ∧
     List.Chain' (fun a b => a = CEv.tick ∨ b = CEv.tick)
       (syncCapture 3 0 [some 11, none, some 12, some 13]).1) :=
  ⟨⟨by decide, by decide⟩,
   sync_capture_exact 3 [some 11, none, some 12, some 13] (by decide) (by decide)⟩

/-- C3: while the counter is below the target, a tick that delivers no
buffer re-ticks without advancing the counter and without writing; a tick
that delivers a buffer writes the current sequence number and advances the
counter (the holder is drained exactly then); and a stream of k bufferless
ticks yields k ticks, no writes, and an unchanged counter — the loop keeps
ticking rather than deadlocking, though it makes no progress. -/
theorem sync_capture_empty_tick (target fc k img : Nat) (rest : List (Option Nat))
    (h : fc < target) :
    syncCapture target fc (none :: rest) =
      (CEv.tick :: (syncCapture target fc rest).1, (syncCapture target fc rest).2) ∧
    writesOf (syncCapture target fc (none :: rest)).1 =
      writesOf (syncCapture target fc rest).1 ∧
    syncCapture target fc (some img :: rest) =
      (CEv.tick :: CEv.write fc :: (syncCapture target (fc + 1) rest).1,
       (syncCapture target (fc + 1) rest).2) ∧
    syncCapture target fc (List.replicate k none) =
      (List.replicate k CEv.tick, fc) := by
  refine ⟨syncCapture_none target fc rest h, ?_, syncCapture_some target fc img rest h,
    syncCapture_all_none target fc h k⟩
  rw [syncCapture_none target fc rest h]
  simp [writesOf]

theorem sync_capture_empty_tick_witness :
    (1 < 3) ∧
    (syncCapture 3 1 (none :: [some 5]) =
      (CEv.tick :: (syncCapture 3 1 [some 5]).1, (syncCapture 3 1 [some 5]).2) ∧
     writesOf (syncCapture 3 1 (none :: [some 5])).1 =
       writesOf (syncCapture 3 1 [some 5]).1 ∧
     syncCapture 3 1 (some 7 :: [some 5]) =
       (CEv.tick :: CEv.write 1 :: (syncCapture 3 2 [some 5]).1,
        (syncCapture 3 2 [some 5]).2) ∧
     syncCapture 3 1 (List.replicate 2 none) = (List.replicate 2 CEv.tick, 1)) :=
  ⟨by decide, sync_capture_empty_tick 3 1 2 7 [some 5] (by decide)⟩

/-! ## Replay-bootstrap wait: data_mode.extract_data lines 145-164 and
follow_mode.follow_vehicle lines 227-246 of replay_with_sensors.py. -/

/-- The waiting loop: while the vehicle list is empty and fewer than 50
attempts have been made, perform one attempt (tick in sync mode, sleep in
async mode), re-query the actor list — modelled by the poll oracle giving
the vehicles visible at the k-th query — and increment the attempt
counter.  Returns the final attempt count and vehicle list. -/
def waitLoop (poll : Nat → List Nat) (wait_attempts : Nat) (vehicles : List Nat) :
    Nat × List Nat :=
  if h : vehicles.isEmpty ∧ wait_attempts < 50 then
    waitLoop poll (wait_attempts + 1) (poll wait_attempts)
  else (wait_attempts, vehicles)
termination_by 50 - wait_attempts
decreasing_by omega

/-- After the wait, the code prints a failure message and returns when the
vehicle list is still empty, and only otherwise indexes vehicles[0]; the
result is the selected vehicle, if any. -/
def bootstrapVehicle (poll : Nat → List Nat) : Option Nat :=
  match (waitLoop poll 0 []).2 with
  | [] => none
  | v :: _ => some v

/-- The attempt counter never exceeds 50. -/
theorem waitLoop_attempts_le (poll : Nat → List Nat) :
    ∀ n wa vs, 50 - wa ≤ n → wa ≤ 50 → (waitLoop poll wa vs).1 ≤ 50 := by
  intro n
  induction n with
  | zero =>
      intro wa vs hn hwa
      have hwa50 : wa = 50 := by omega
      subst hwa50
      rw [waitLoop]
      simp
  | succ n ihn =>
      intro wa vs hn hwa
      rw [waitLoop]
      split
      · next h => exact ihn (wa + 1) (poll wa) (by omega) (by omega)
      · exact hwa

/-- If every poll comes back empty, the loop runs exactly to the 50-attempt
cap and ends with an empty vehicle list. -/
theorem waitLoop_all_empty (poll : Nat → List Nat) (hpoll : ∀ k, poll k = []) :
    ∀ n wa, 50 - wa ≤ n → wa ≤ 50 → waitLoop poll wa [] = (50, []) := by
  intro n
  induction n with
  | zero =>
      intro wa hn hwa
      have hwa50 : wa = 50 := by omega
      subst hwa50
      rw [waitLoop]
      simp
  | succ n ihn =>
      intro wa hn hwa
      by_cases h50 : wa < 50
      · rw [waitLoop]
        rw [dif_pos ⟨by simp, h50⟩, hpoll wa]
        exact ihn (wa + 1) (by omega) (by omega)
      · have hwa50 : wa = 50 := by omega
        subst hwa50
        rw [waitLoop]
        simp

/-- C4: the replay-bootstrap wait performs at most 50 polling attempts; if
no vehicle ever appears it stops at exactly 50 attempts and reports
failure (returns without selecting a vehicle); and a vehicle is selected
only when the final vehicle list is nonempty and is then its head, so the
empty collection is never indexed. -/
theorem replay_bootstrap_bounded (poll : Nat → List Nat) :
    (waitLoop poll 0 []).1 ≤ 50 ∧
    ((∀ k, poll k = []) → bootstrapVehicle poll = none ∧ (waitLoop poll 0 []).1 = 50) ∧
    (∀ v, bootstrapVehicle poll = some v → ∃ t, (waitLoop poll 0 []).2 = v :: t) := by
  refine ⟨waitLoop_attempts_le poll 50 0 [] (by omega) (by omega), ?_, ?_⟩
  · intro hpoll
    have h := waitLoop_all_empty poll hpoll 50 0 (by omega) (by omega)
    constructor
    · unfold bootstrapVehicle
      rw [h]
    · rw [h]
  · intro v hv
    unfold bootstrapVehicle at hv
    rcases heq : (waitLoop poll 0 []).2 with _ | ⟨w, t⟩
    · rw [heq] at hv
      simp at hv
    · rw [heq] at hv
      simp at hv
      subst hv
      exact ⟨t, rfl⟩

theorem replay_bootstrap_bounded_witness :
    ((waitLoop (fun _ => []) 0 []).1 ≤ 50 ∧
     (waitLoop (fun _ => []) 0 []).1 = 50 ∧
     bootstrapVehicle (fun _ => []) = none) ∧
    (∃ t, (waitLoop (fun _ => [7]) 0 []).2 = 7 :: t) :=
  ⟨⟨(replay_bootstrap_bounded (fun _ => [])).1,
    ((replay_bootstrap_bounded (fun _ => [])).2.1 (fun _ => rfl)).2,
    ((replay_bootstrap_bounded (fun _ => [])).2.1 (fun _ => rfl)).1⟩,
   (replay_bootstrap_bounded (fun _ => [7])).2.2 7 (by
      unfold bootstrapVehicle
      rw [waitLoop]
      simp
      rw [waitLoop]
      simp)⟩

/-! ## Telemetry extraction: data_mode.extract_data lines 166-204 of
replay_with_sensors.py. -/

/-- A vehicle actor as observed during one extraction step: its id, and
the transform/velocity reading — none models get_transform/get_velocity
raising (vehicle destroyed mid-read), which the bare except suppresses.
Positions and velocities are idealised as rationals. -/
structure Veh where
  id : Nat
  read : Option ((ℚ × ℚ) × (ℚ × ℚ))
deriving DecidableEq

/-- One line of vehicle_data.txt: a "--- Frame n ---" block header, or a
"Vehicle id: pos=(x,y) vel=(x,y)" report line. -/
inductive DLine where
  | header (n : Nat)
  | vehLine (id : Nat) (pos : ℚ × ℚ) (vel : ℚ × ℚ)
deriving DecidableEq

def isVehLine : DLine → Bool
  | .vehLine .. => true
  | .header _ => false

def isHeaderLine : DLine → Bool
  | .header _ => true
  | .vehLine .. => false

/-- The lines written for one step: the frame header, then one report line
per vehicle whose transform/velocity read succeeds; a vehicle whose read
raises contributes nothing (the except: pass branch). -/
def stepBlock (n : Nat) (vs : List Veh) : List DLine :=
  DLine.header n ::
    vs.filterMap (fun v => v.read.map (fun d => DLine.vehLine v.id d.1 d.2))

/-- The synchronous extraction loop (while frame_count < target: tick,
re-query the vehicle list — the oracle gives the list observed at step fc —
write the frame header and the per-vehicle lines, advance the counter),
returning the per-iteration write batches. -/
def extract_data_sync (oracle : Nat → List Veh) (target : Nat) (fc : Nat) :
    List (List DLine) :=
  if fc < target then
    stepBlock fc (oracle fc) :: extract_data_sync oracle target (fc + 1)
  else []
termination_by target - fc
decreasing_by omega

/-- The loop performs exactly target - fc iterations. -/
theorem extract_data_sync_length (oracle : Nat → List Veh) (target : Nat) :
    ∀ n fc, target - fc ≤ n →
      (extract_data_sync oracle target fc).length = target - fc := by
  intro n
  induction n with
  | zero =>
      intro fc h
      have hlt : ¬ fc < target := by omega
      rw [extract_data_sync, if_neg hlt]
      simp
      omega
  | succ n ihn =>
      intro fc h
      by_cases hlt : fc < target
      · rw [extract_data_sync, if_pos hlt]
        simp [ihn (fc + 1) (by omega)]
        omega
      · rw [extract_data_sync, if_neg hlt]
        simp
        omega

/-- The i-th batch written by the loop is the block of step fc + i. -/
theorem extract_data_sync_getElem (oracle : Nat → List Veh) (target : Nat) :
    ∀ i fc, fc + i < target →
      (extract_data_sync oracle target fc)[i]? =
        some (stepBlock (fc + i) (oracle (fc + i))) := by
  intro i
  induction i with
  | zero =>
      intro fc h
      rw [extract_data_sync, if_pos (by omega)]
      simp
  | succ i ihi =>
      intro fc h
      rw [extract_data_sync, if_pos (by omega)]
      simp only [List.getElem?_cons_succ]
      have hrec := ihi (fc + 1) (by omega)
      have harith : fc + 1 + i = fc + (i + 1) := by omega
      rw [harith] at hrec
      exact hrec

/-- The report lines produced for a vehicle list are exactly one per
vehicle with a successful read. -/
theorem filterMap_read_length (vs : List Veh) :
    (vs.filterMap (fun v => v.read.map (fun d => DLine.vehLine v.id d.1 d.2))).length
      = (vs.filter (fun v => v.read.isSome)).length := by
  induction vs with
  | nil => simp
  | cons v rest ih =>
      cases hv : v.read with
      | none => simp [List.filterMap_cons, hv, List.filter_cons, ih]
      | some d => simp [List.filterMap_cons, hv, List.filter_cons, ih]

/-- Successful and failing reads partition the vehicle list. -/
theorem filter_some_none_length (vs : List Veh) :
    (vs.filter (fun v => v.read.isSome)).length
      + (vs.filter (fun v => v.read.isNone)).length = vs.length := by
  induction vs with
  | nil => simp
  | cons v rest ih =>
      cases hv : v.read <;> simp [List.filter_cons, hv] <;> omega

/-- Each step batch has exactly one header line, and its report-line count
equals the number of vehicles with successful reads. -/
theorem stepBlock_counts (n : Nat) (vs : List Veh) :
    ((stepBlock n vs).filter isHeaderLine).length = 1 ∧
    ((stepBlock n vs).filter isVehLine).length
      = (vs.filter (fun v => v.read.isSome)).length := by
  constructor
  · rw [stepBlock, List.filter_cons]
    have hnil : (vs.filterMap
        (fun v => v.read.map (fun d => DLine.vehLine v.id d.1 d.2))).filter
          isHeaderLine = [] := by
      rw [List.filter_eq_nil_iff]
      intro l hl
      rcases List.mem_filterMap.mp hl with ⟨v, _, hv⟩
      cases hr : v.read with
      | none => rw [hr] at hv; simp at hv
      | some d =>
          rw [hr] at hv
          simp at hv
          rw [← hv]
          simp [isHeaderLine]
    simp [isHeaderLine, hnil]
  · rw [stepBlock, List.filter_cons]
    have hall : (vs.filterMap
        (fun v => v.read.map (fun d => DLine.vehLine v.id d.1 d.2))).filter
          isVehLine = vs.filterMap
        (fun v => v.read.map (fun d => DLine.vehLine v.id d.1 d.2)) := by
      rw [List.filter_eq_self]
      intro l hl
      rcases List.mem_filterMap.mp hl with ⟨v, _, hv⟩
      cases hr : v.read with
      | none => rw [hr] at hv; simp at hv
      | some d =>
          rw [hr] at hv
          simp at hv
          rw [← hv]
          simp [isVehLine]
    simp [isVehLine, hall, filterMap_read_length]

/-- C5: for each captured step the loop writes one frame-header block and
one report line per vehicle whose transform/velocity read succeeds; a
vehicle whose read raises is skipped for that step only, without aborting
the run (all target step batches are still produced), so a step with K
vehicles of which exactly one fails yields exactly K - 1 report lines. -/
theorem extract_data_skips_failed (oracle : Nat → List Veh) (target n K : Nat)
    (hn : n < target) (hK : (oracle n).length = K)
    (hfail : ((oracle n).filter (fun v => v.read.isNone)).length = 1) :
    (extract_data_sync oracle target 0).length = target ∧
    (extract_data_sync oracle target 0)[n]? = some (stepBlock n (oracle n)) ∧
    ((stepBlock n (oracle n)).filter isHeaderLine).length = 1 ∧
    ((stepBlock n (oracle n)).filter isVehLine).length = K - 1 := by
  refine ⟨by simpa using extract_data_sync_length oracle target target 0 (by omega),
    ?_, (stepBlock_counts n (oracle n)).1, ?_⟩
  · simpa using extract_data_sync_getElem oracle target n 0 (by omega)
  · have h1 := (stepBlock_counts n (oracle n)).2
    have h2 := filter_some_none_length (oracle n)
    omega

theorem extract_data_skips_failed_witness :
    (1 < 2 ∧
     ((fun _ => [Veh.mk 1 (some ((0, 0), (0, 0))), Veh.mk 2 none]) 1 :
       List Veh).length = 2 ∧
     (((fun _ => [Veh.mk 1 (some ((0, 0), (0, 0))), Veh.mk 2 none]) 1 :
       List Veh).filter (fun v => v.read.isNone)).length = 1) ∧
    ((extract_data_sync (fun _ => [Veh.mk 1 (some ((0, 0), (0, 0))), Veh.mk 2 none]) 2 0).length = 2 ∧
     (extract_data_sync (fun _ => [Veh.mk 1 (some ((0, 0), (0, 0))), Veh.mk 2 none]) 2 0)[1]? =
       some (stepBlock 1 [Veh.mk 1 (some ((0, 0), (0, 0))), Veh.mk 2 none]) ∧
     ((stepBlock 1 [Veh.mk 1 (some ((0, 0), (0, 0))), Veh.mk 2 none]).filter isHeaderLine).length = 1 ∧
     ((stepBlock 1 [Veh.mk 1 (some ((0, 0), (0, 0))), Veh.mk 2 none]).filter isVehLine).length = 2 - 1) :=
  ⟨⟨by decide, by decide, by decide⟩,
   extract_data_skips_failed
     (fun _ => [Veh.mk 1 (some ((0, 0), (0, 0))), Veh.mk 2 none]) 2 1 2
     (by decide) (by decide) (by decide)⟩

/-! ## Replay driver: run_replay (replay_with_sensors.py lines 12-59) and
replay_log (record_replay_logs.py lines 73-111). -/

/-- The session-wide simulation settings mutated by the scripts: stepping
mode and fixed step size (None when not set). -/
structure WSettings where
  synchronous_mode : Bool
  fixed_delta_seconds : Option ℚ
deriving DecidableEq, Repr

/-- Observable events of the replay drivers: console output, a
world.apply_settings call with the value applied, a client.replay_file
request, world.tick(), time.sleep, and the capture_func invocation. -/
inductive REv where
  | print (s : String)
  | applySettings (s : WSettings)
  | replayFile (path : String)
  | tick
  | sleep
  | runCapture
deriving DecidableEq, Repr

/-- FPS = 20 in replay_with_sensors.py; the step size is 1.0 / FPS. -/
def replayFPS : ℚ := 20

/-- Heap of carla.WorldSettings Python objects, addressed by reference.
world.get_settings() returns a fresh object copying the current world
settings; a plain Python assignment copies the reference, not the object. -/
def heapGet (heap : List WSettings) (r : Nat) : WSettings :=
  heap.getD r ⟨false, none⟩

def heapSet (heap : List WSettings) (r : Nat) (s : WSettings) : List WSettings :=
  heap.set r s

/-- run_replay: existence check, then settings = world.get_settings() (a
fresh heap object), original_settings = settings (the SAME reference),
in-place mutation of that object, apply_settings, replay_file, the
initialization ticks/sleep, capture_func inside try, and in the finally
block world.apply_settings(original_settings).  Returns the event trace,
the world settings in force after the call, and whether the call completed
without the capture exception propagating. -/
def run_replay (logExists : Bool) (log_file : String) (sync_mode : Bool)
    (duration : ℚ) (world0 : WSettings) (captureRaises : Bool) :
    List REv × WSettings × Bool :=
  if ¬ logExists then
    ([REv.print ("Log file not found: " ++ log_file)], world0, true)
  else
    let heap0 : List WSettings := [world0]
    let settings : Nat := 0
    let original_settings : Nat := settings
    let heap1 :=
      if sync_mode then
        let hA := heapSet heap0 settings
          { heapGet heap0 settings with synchronous_mode := true }
        heapSet hA settings
          { heapGet hA settings with fixed_delta_seconds := some (1 / replayFPS) }
      else
        heapSet heap0 settings
          { heapGet heap0 settings with synchronous_mode := false }
    let evs :=
      [REv.print ("Starting replay: " ++ log_file),
       REv.applySettings (heapGet heap1 settings),
       REv.print (if sync_mode then "Using SYNCHRONOUS mode" else "Using ASYNCHRONOUS mode"),
       REv.replayFile log_file,
       REv.print "Waiting for replay to initialize..."]
      ++ (if sync_mode then List.replicate 10 REv.tick else [REv.sleep])
      ++ [REv.runCapture,
          REv.applySettings (heapGet heap1 original_settings)]
    (evs, heapGet heap1 original_settings, ¬ captureRaises)

/-- replay_log of record_replay_logs.py: existence check with early return,
otherwise the replay_file request inside try/except, the wait, and the
completion message. -/
def replay_log (logExists : Bool) (log_filename : String) (start_time duration : ℚ)
    (follow_id : Nat) (replayRaises : Bool) : List REv :=
  [REv.print ("Checking log file: " ++ log_filename)] ++
  if ¬ logExists then
    [REv.print ("Log file " ++ log_filename ++ " not found!")]
  else
    [REv.print "File exists",
     REv.print ("Replaying " ++ log_filename ++ "...")] ++
    if replayRaises then
      [REv.replayFile log_filename,
       REv.print "Error starting replay",
       REv.print "This might be because the CARLA server cannot access the file path."]
    else
      [REv.replayFile log_filename,
       REv.print "Replay started. The simulation will run the recorded events.",
       REv.sleep,
       REv.print "Replay completed."]

/-- C1 fails on the code: in run_replay, original_settings aliases the
mutated settings object, so the finally block re-applies the MUTATED
settings.  Evaluated at the failing input — an existing log, sync_mode
True, a world initially in asynchronous mode — the settings in force
after run_replay (whether capture_func returns or raises) are the mutated
synchronous ones, which differ from the pre-mutation settings. -/
theorem run_replay_settings_not_restored :
    (run_replay true "recording.log" true 5 ⟨false, none⟩ false).2.1 =
      ⟨true, some (1 / replayFPS)⟩ ∧
    (run_replay true "recording.log" true 5 ⟨false, none⟩ true).2.1 =
      ⟨true, some (1 / replayFPS)⟩ ∧
    (⟨true, some (1 / replayFPS)⟩ : WSettings) ≠ ⟨false, none⟩ := by
  refine ⟨rfl, rfl, ?_⟩
  intro h
  have := congrArg WSettings.synchronous_mode h
  simp at this

/-- C9: when the log file does not exist, run_replay prints the not-found
diagnostic and returns early having emitted no other event: the settings
in force are unchanged, no apply_settings call and no replay request ever
happen; and replay_log likewise reports and returns without requesting a
replay. -/
theorem run_replay_missing_log (log_file : String) (sync_mode : Bool)
    (duration : ℚ) (world0 : WSettings) (captureRaises : Bool)
    (start_time duration2 : ℚ) (follow_id : Nat) (replayRaises : Bool) :
    run_replay false log_file sync_mode duration world0 captureRaises =
      ([REv.print ("Log file not found: " ++ log_file)], world0, true) ∧
    (∀ s, REv.applySettings s ∉
       (run_replay false log_file sync_mode duration world0 captureRaises).1) ∧
    (∀ p, REv.replayFile p ∉
       (run_replay false log_file sync_mode duration world0 captureRaises).1) ∧
    (run_replay false log_file sync_mode duration world0 captureRaises).2.1 = world0 ∧
    REv.print ("Log file " ++ log_file ++ " not found!") ∈
      replay_log false log_file start_time duration2 follow_id replayRaises ∧
    (∀ p, REv.replayFile p ∉
       replay_log false log_file start_time duration2 follow_id replayRaises) := by
  refine ⟨rfl, ?_, ?_, rfl, ?_, ?_⟩
  · intro s
    simp [run_replay]
  · intro p
    simp [run_replay]
  · simp [replay_log]
  · intro p
    simp [replay_log]
